import Mathlib

/-
Verification of the CEC callback bridge (src/cec/callbacks_c.c).

The bridge is seven C entry points invoked by libCEC; each unwraps a native
payload and forwards it to a host-side dispatch function
(goXxxCallbackBridge).  We embed each entry point shallowly:

* C pointers are modelled as natural-number addresses (`Ptr`); a nullable
  pointer argument is `Option Ptr` / `Option record` (`none` = NULL).
* The host dispatch functions are opaque collaborators.  For the six
  fire-and-forget paths the observable behaviour of an entry point is the
  list of dispatch calls it performs, recorded as `HostCall` values carrying
  exactly the arguments handed over.  The menu-state path additionally
  returns the host handler's integer result, so its embedding takes the host
  handler as a function argument and returns its value.
* The alert path takes its `libcec_parameter` argument BY VALUE (C parameter
  passing) and hands the host `&param`, the address of that call-local copy.
  To reason about this we model memory explicitly for that path: a heap
  `Nat → Int` (the parameter struct is opaque to the bridge and modelled as a
  single stored value), a fresh address `paramAddr` where the by-value
  parameter object of the entry point lives, and a host handler that may
  read and mutate the heap through the pointer it is given.

All integer payload fields are forwarded by the C code without arithmetic or
conversion that could change a value (the only widening is uint8_t → int,
which is value-preserving), so they are modelled as `Int` / `Nat` / `Fin 256`
and bit-for-bit forwarding is equality of the modelled values.
-/

/-- A C pointer value (an address).  Nullability is modelled by `Option`. -/
abbrev Ptr := Nat

/-- The `cec_log_message` record: `const char* message; cec_log_level level;
int64_t time;`.  The message text pointer may itself be NULL. -/
structure cec_log_message where
  message : Option Ptr
  level : Int
  time : Int
  deriving DecidableEq

/-- The `cec_keypress` record: `cec_user_control_code keycode;
unsigned int duration;`. -/
structure cec_keypress where
  keycode : Int
  duration : Nat
  deriving DecidableEq

/-- One dispatch call into the host side (one invocation of a
`goXxxCallbackBridge` function), carrying exactly the argument values the
bridge hands over. -/
inductive HostCall where
  | logMessage (handle : Ptr) (level : Int) (timestamp : Int) (message : Ptr)
  | keyPress (handle : Ptr) (keycode : Int) (duration : Nat)
  | command (handle : Ptr) (command : Ptr)
  | configurationChanged (handle : Ptr) (config : Ptr)
  | alert (handle : Ptr) (alertKind : Int) (param : Ptr)
  | menuStateChanged (handle : Ptr) (state : Int)
  | sourceActivated (handle : Ptr) (address : Int) (activated : Nat)
  deriving DecidableEq

/-- The handle argument of a dispatch call. -/
def handleOf : HostCall → Ptr
  | .logMessage h _ _ _ => h
  | .keyPress h _ _ => h
  | .command h _ => h
  | .configurationChanged h _ => h
  | .alert h _ _ => h
  | .menuStateChanged h _ => h
  | .sourceActivated h _ _ => h

/-- `goLogMessageCallback`: dispatches iff the record pointer and the
record's message-text pointer are both non-null
(`if (message && message->message)`), forwarding level, time and the text
pointer. -/
def goLogMessageCallback (handle : Ptr) (message : Option cec_log_message) :
    List HostCall :=
  match message with
  | some m =>
    match m.message with
    | some text => [HostCall.logMessage handle m.level m.time text]
    | none => []
  | none => []

/-- `goKeyPressCallback`: dispatches iff the record pointer is non-null
(`if (key)`), forwarding keycode and duration by value. -/
def goKeyPressCallback (handle : Ptr) (key : Option cec_keypress) :
    List HostCall :=
  match key with
  | some k => [HostCall.keyPress handle k.keycode k.duration]
  | none => []

/-- `goCommandCallback`: dispatches iff the record pointer is non-null
(`if (command)`), forwarding the record pointer itself, opaquely. -/
def goCommandCallback (handle : Ptr) (command : Option Ptr) : List HostCall :=
  match command with
  | some c => [HostCall.command handle c]
  | none => []

/-- `goConfigurationChangedCallback`: dispatches iff the record pointer is
non-null (`if (config)`), forwarding the record pointer itself, opaquely. -/
def goConfigurationChangedCallback (handle : Ptr) (config : Option Ptr) :
    List HostCall :=
  match config with
  | some c => [HostCall.configurationChanged handle c]
  | none => []

/-- Write one heap cell. -/
def writeHeap (heap : Nat → Int) (a : Nat) (v : Int) : Nat → Int :=
  fun x => if x = a then v else heap x

/-- The host-side alert handler `goAlertCallbackBridge`: receives the handle,
the alert kind, the parameter pointer, and the memory at call time; it
returns the memory after the call (it may read and write through the
pointer). -/
abbrev AlertHost := Ptr → Int → Ptr → (Nat → Int) → (Nat → Int)

/-- `goAlertCallback`: no null-guard; the `libcec_parameter` argument arrives
BY VALUE, so the entry point's `param` is a fresh call-local object, placed
at `paramAddr` in the modelled memory; the host handler is invoked exactly
once and is handed `&param`, the address of that copy.  The result is the
memory after the host handler returns, paired with the dispatch trace. -/
def goAlertCallback (hostB : AlertHost) (handle : Ptr) (alertKind : Int)
    (param : Int) (heap : Nat → Int) (paramAddr : Nat) :
    (Nat → Int) × List HostCall :=
  (hostB handle alertKind paramAddr (writeHeap heap paramAddr param),
   [HostCall.alert handle alertKind paramAddr])

/-- `goMenuStateChangedCallback`: forwards the state to the host handler
`goMenuStateChangedCallbackBridge` (modelled as the function `bridge`) and
returns the handler's integer result to the native caller, paired with the
dispatch trace. -/
def goMenuStateChangedCallback (bridge : Ptr → Int → Int) (handle : Ptr)
    (state : Int) : Int × List HostCall :=
  (bridge handle state, [HostCall.menuStateChanged handle state])

/-- `goSourceActivatedCallback`: no guard; forwards the logical address and
the `uint8_t` activation flag (widened, value-preservingly, to `int`). -/
def goSourceActivatedCallback (handle : Ptr) (address : Int)
    (activated : Fin 256) : List HostCall :=
  [HostCall.sourceActivated handle address activated.val]

/-- One invocation of a bridge entry point, with its arguments. -/
inductive Invocation where
  | logMessage (handle : Ptr) (message : Option cec_log_message)
  | keyPress (handle : Ptr) (key : Option cec_keypress)
  | command (handle : Ptr) (cmd : Option Ptr)
  | configurationChanged (handle : Ptr) (config : Option Ptr)
  | alert (handle : Ptr) (alertKind : Int) (param : Int) (paramAddr : Nat)
  | menuStateChanged (handle : Ptr) (state : Int)
  | sourceActivated (handle : Ptr) (address : Int) (activated : Fin 256)

/-- The dispatch calls one invocation performs, in an environment giving the
host handlers and the memory. -/
def dispatchOf (menuHost : Ptr → Int → Int) (hostB : AlertHost)
    (heap : Nat → Int) : Invocation → List HostCall
  | .logMessage h m => goLogMessageCallback h m
  | .keyPress h k => goKeyPressCallback h k
  | .command h c => goCommandCallback h c
  | .configurationChanged h c => goConfigurationChangedCallback h c
  | .alert h a p addr => (goAlertCallback hostB h a p heap addr).2
  | .menuStateChanged h s => (goMenuStateChangedCallback menuHost h s).2
  | .sourceActivated h a act => goSourceActivatedCallback h a act

/-- The dispatch calls of a sequence of invocations, in order.  The bridge
holds no state of its own, so running a batch is just running each call. -/
def runBatch (menuHost : Ptr → Int → Int) (hostB : AlertHost)
    (heap : Nat → Int) : List Invocation → List HostCall
  | [] => []
  | i :: rest =>
      dispatchOf menuHost hostB heap i ++ runBatch menuHost hostB heap rest

/-- C1: for each of the seven event kinds, a valid non-null payload results
in exactly one dispatch call to the corresponding host handler, and every
numeric field handed over (level, timestamp, keycode, duration, alert kind,
state, logical address, activation flag) equals the corresponding input
field bit-for-bit. -/
theorem valid_payload_single_dispatch (handle : Ptr) (m : cec_log_message)
    (text : Ptr) (hm : m.message = some text) (k : cec_keypress)
    (cmd cfg : Ptr) (hostB : AlertHost) (alertKind param : Int)
    (heap : Nat → Int) (paramAddr : Nat) (menuHost : Ptr → Int → Int)
    (state : Int) (address : Int) (activated : Fin 256) :
    goLogMessageCallback handle (some m) =
      [HostCall.logMessage handle m.level m.time text] ∧
    goKeyPressCallback handle (some k) =
      [HostCall.keyPress handle k.keycode k.duration] ∧
    goCommandCallback handle (some cmd) = [HostCall.command handle cmd] ∧
    goConfigurationChangedCallback handle (some cfg) =
      [HostCall.configurationChanged handle cfg] ∧
    (goAlertCallback hostB handle alertKind param heap paramAddr).2 =
      [HostCall.alert handle alertKind paramAddr] ∧
    (goMenuStateChangedCallback menuHost handle state).2 =
      [HostCall.menuStateChanged handle state] ∧
    goSourceActivatedCallback handle address activated =
      [HostCall.sourceActivated handle address activated.val] := by
  refine ⟨?_, rfl, rfl, rfl, rfl, rfl, rfl⟩
  simp [goLogMessageCallback, hm]

/-- Witness for C1 at concrete inputs (the spec's end-to-end example:
level 3, timestamp 1700000000, a non-null text pointer). -/
theorem valid_payload_single_dispatch_witness :
    goLogMessageCallback 2 (some ⟨some 11, 3, 1700000000⟩) =
      [HostCall.logMessage 2 3 1700000000 11] ∧
    goKeyPressCallback 2 (some ⟨17, 500⟩) = [HostCall.keyPress 2 17 500] ∧
    goCommandCallback 2 (some 21) = [HostCall.command 2 21] ∧
    goConfigurationChangedCallback 2 (some 22) =
      [HostCall.configurationChanged 2 22] ∧
    (goAlertCallback (fun _ _ _ h => h) 2 4 9 (fun _ => 0) 5).2 =
      [HostCall.alert 2 4 5] ∧
    (goMenuStateChangedCallback (fun _ _ => 1) 2 6).2 =
      [HostCall.menuStateChanged 2 6] ∧
    goSourceActivatedCallback 2 7 255 =
      [HostCall.sourceActivated 2 7 255] :=
  valid_payload_single_dispatch 2 ⟨some 11, 3, 1700000000⟩ 11 rfl ⟨17, 500⟩
    21 22 (fun _ _ _ h => h) 4 9 (fun _ => 0) 5 (fun _ _ => 1) 6 7 255

/-- C2: the menu-state-changed entry point returns exactly the integer the
host handler returned, unchanged and unvalidated, for every integer state
value (including values outside the documented enum range), and it produces
some integer result on every call. -/
theorem menu_state_return_passthrough (bridge : Ptr → Int → Int)
    (handle : Ptr) (state : Int) :
    (goMenuStateChangedCallback bridge handle state).1 = bridge handle state ∧
    ∃ r : Int, (goMenuStateChangedCallback bridge handle state).1 = r :=
  ⟨rfl, bridge handle state, rfl⟩

/-- C3: for the four pointer-bearing event kinds, a null record pointer
produces zero dispatch calls (a complete no-op, no error reported). -/
theorem null_record_no_dispatch (handle : Ptr) :
    goLogMessageCallback handle none = [] ∧
    goKeyPressCallback handle none = [] ∧
    goCommandCallback handle none = [] ∧
    goConfigurationChangedCallback handle none = [] :=
  ⟨rfl, rfl, rfl, rfl⟩

/-- C4: the log-message entry point drops the event (zero dispatch calls)
when the record is non-null but its message-text pointer is null; in
general it dispatches exactly when both the record and its message text are
non-null. -/
theorem log_message_null_text_dropped (handle : Ptr) (m : cec_log_message)
    (h : m.message = none) :
    goLogMessageCallback handle (some m) = [] ∧
    ∀ rec : Option cec_log_message,
      goLogMessageCallback handle rec ≠ [] ↔
        ∃ m' text, rec = some m' ∧ m'.message = some text := by
  refine ⟨by simp [goLogMessageCallback, h], ?_⟩
  intro rec
  match rec with
  | none => simp [goLogMessageCallback]
  | some m' =>
    match h2 : m'.message with
    | none => simp [goLogMessageCallback, h2]
    | some t =>
      simp only [goLogMessageCallback, h2]
      constructor
      · intro _
        exact ⟨m', t, rfl, h2⟩
      · intro _
        simp

/-- Witness for C4 at a concrete input: a valid record whose message-text
pointer is null. -/
theorem log_message_null_text_dropped_witness :
    goLogMessageCallback 2 (some ⟨none, 3, 5⟩) = [] ∧
    ∀ rec : Option cec_log_message,
      goLogMessageCallback 2 rec ≠ [] ↔
        ∃ m' text, rec = some m' ∧ m'.message = some text :=
  log_message_null_text_dropped 2 ⟨none, 3, 5⟩ rfl

/-- C5 counterexample: the reference handed to the host points at the entry
point's call-local BY-VALUE copy of the parameter, not at the caller's own
storage.  Concretely: the caller's parameter storage is cell 0 holding 5,
the by-value copy lives at the fresh cell 1, and the host writes 99 through
the reference it is given.  After the call the copy (cell 1) holds 99, but
the caller's storage (cell 0) still holds 5 — the mutation made through the
host-visible reference is NOT observable by the caller of the bridge,
refuting the claim as stated. -/
theorem alert_param_is_copy_counterexample :
    (goAlertCallback (fun _ _ p h => writeHeap h p 99) 7 3 5 (fun _ => 5) 1).1
        1 = 99 ∧
    (goAlertCallback (fun _ _ p h => writeHeap h p 99) 7 3 5 (fun _ => 5) 1).1
        0 = 5 ∧
    (5 : Int) ≠ 99 := by
  refine ⟨rfl, rfl, by decide⟩

/-- C5 amended: the alert entry point hands the host handler a reference to
a fresh call-local copy of the parameter (the C by-value parameter object);
through that reference the host sees the caller's parameter value for the
duration of the call, but mutations made through it do not alter the
caller's own storage: provided the host writes only through the handed
reference, every memory cell other than the copy's is unchanged when the
bridge returns. -/
theorem alert_param_copy_semantics (hostB : AlertHost) (handle : Ptr)
    (alertKind param : Int) (heap : Nat → Int) (paramAddr callerAddr : Nat)
    (hne : callerAddr ≠ paramAddr)
    (hlocal : ∀ hl al p h x, x ≠ p → hostB hl al p h x = h x) :
    (goAlertCallback hostB handle alertKind param heap paramAddr).1
        callerAddr = heap callerAddr ∧
    (goAlertCallback (fun _ _ _ h => h) handle alertKind param heap
        paramAddr).1 paramAddr = param := by
  constructor
  · show hostB handle alertKind paramAddr (writeHeap heap paramAddr param)
        callerAddr = heap callerAddr
    rw [hlocal _ _ _ _ _ hne]
    simp [writeHeap, hne]
  · simp [goAlertCallback, writeHeap]

/-- Witness for C5's amended claim: a host that writes 99 through the handed
reference; the caller's storage (cell 0) keeps its value, and a read-only
host sees the caller's parameter value 5 through the reference. -/
theorem alert_param_copy_semantics_witness :
    (goAlertCallback (fun _ _ p h => writeHeap h p 99) 7 3 5 (fun _ => 5) 1).1
        0 = 5 ∧
    (goAlertCallback (fun _ _ _ h => h) 7 3 5 (fun _ => 5) 1).1 1 = 5 :=
  alert_param_copy_semantics (fun _ _ p h => writeHeap h p 99) 7 3 5
    (fun _ => 5) 1 0 (by decide)
    (fun _ _ p h x hx => by simp [writeHeap, hx])

/-- C6: the alert entry point has no null-guard and no precondition: for
every alert kind, parameter value, memory and host handler, it invokes the
host handler unconditionally and exactly once, with the alert kind passed by
value and the parameter passed as an address (the host receives the address
`paramAddr` and a memory whose cell at that address holds the parameter
value). -/
theorem alert_unconditional_dispatch (hostB : AlertHost) (handle : Ptr)
    (alertKind param : Int) (heap : Nat → Int) (paramAddr : Nat) :
    (goAlertCallback hostB handle alertKind param heap paramAddr).2 =
      [HostCall.alert handle alertKind paramAddr] ∧
    (goAlertCallback hostB handle alertKind param heap paramAddr).1 =
      hostB handle alertKind paramAddr (writeHeap heap paramAddr param) ∧
    writeHeap heap paramAddr param paramAddr = param := by
  refine ⟨rfl, rfl, by simp [writeHeap]⟩

/-- C7: for the command and configuration-changed entry points, a non-null
record pointer is forwarded to the host handler identically — the very same
address, with no copy and no interpretation of the record's contents. -/
theorem record_pointer_passthrough (handle : Ptr) (cmd cfg : Ptr) :
    goCommandCallback handle (some cmd) = [HostCall.command handle cmd] ∧
    goConfigurationChangedCallback handle (some cfg) =
      [HostCall.configurationChanged handle cfg] :=
  ⟨rfl, rfl⟩

/-- C8: the bridge is memoryless and deterministic in its arguments.  Within
any batch of invocations, the dispatch calls an invocation performs are
exactly its standalone dispatch calls, unaffected by what ran before or
after (no value leaks between invocations); the dispatched values are
independent of the alert-host handler and of the ambient memory (they depend
only on the invocation's own arguments); and the menu-state return value is
a function of that call's own arguments alone. -/
theorem bridge_memoryless (menuHost : Ptr → Int → Int) (hostB hostB2 : AlertHost)
    (heap heap2 : Nat → Int) (pre post : List Invocation) (i : Invocation) :
    runBatch menuHost hostB heap (pre ++ i :: post) =
      runBatch menuHost hostB heap pre ++ dispatchOf menuHost hostB heap i ++
        runBatch menuHost hostB heap post ∧
    dispatchOf menuHost hostB heap i = dispatchOf menuHost hostB2 heap2 i ∧
    ∀ handle state, (goMenuStateChangedCallback menuHost handle state).1 =
      menuHost handle state := by
  refine ⟨?_, ?_, fun _ _ => rfl⟩
  · induction pre with
    | nil => simp [runBatch]
    | cons p rest ih => simp [runBatch, ih]
  · cases i <;> rfl

/-- C9: every dispatch call any entry point performs carries exactly the
handle the bridge received (the opaque handle is forwarded verbatim), and
the bridge mutates none of its inputs: on the one path with modelled memory
(alert), every memory cell other than the fresh by-value copy's is
unchanged, provided the host itself writes only through the handed
reference. -/
theorem handle_opaque_and_inputs_readonly (handle : Ptr) (hostB : AlertHost)
    (alertKind param : Int) (heap : Nat → Int) (paramAddr : Nat)
    (menuHost : Ptr → Int → Int) (state : Int) (address : Int)
    (activated : Fin 256)
    (hlocal : ∀ hl al p h x, x ≠ p → hostB hl al p h x = h x) :
    (∀ rec, ∀ c ∈ goLogMessageCallback handle rec, handleOf c = handle) ∧
    (∀ key, ∀ c ∈ goKeyPressCallback handle key, handleOf c = handle) ∧
    (∀ cmd, ∀ c ∈ goCommandCallback handle cmd, handleOf c = handle) ∧
    (∀ cfg, ∀ c ∈ goConfigurationChangedCallback handle cfg,
      handleOf c = handle) ∧
    (∀ c ∈ (goAlertCallback hostB handle alertKind param heap paramAddr).2,
      handleOf c = handle) ∧
    (∀ c ∈ (goMenuStateChangedCallback menuHost handle state).2,
      handleOf c = handle) ∧
    (∀ c ∈ goSourceActivatedCallback handle address activated,
      handleOf c = handle) ∧
    (∀ x, x ≠ paramAddr →
      (goAlertCallback hostB handle alertKind param heap paramAddr).1 x =
        heap x) := by
  refine ⟨?_, ?_, ?_, ?_, ?_, ?_, ?_, ?_⟩
  · intro rec c hc
    match rec with
    | none => simp [goLogMessageCallback] at hc
    | some m =>
      match h2 : m.message with
      | none => simp [goLogMessageCallback, h2] at hc
      | some t =>
        simp [goLogMessageCallback, h2] at hc
        simp [hc, handleOf]
  · intro key c hc
    match key with
    | none => simp [goKeyPressCallback] at hc
    | some k =>
      simp [goKeyPressCallback] at hc
      simp [hc, handleOf]
  · intro cmd c hc
    match cmd with
    | none => simp [goCommandCallback] at hc
    | some x =>
      simp [goCommandCallback] at hc
      simp [hc, handleOf]
  · intro cfg c hc
    match cfg with
    | none => simp [goConfigurationChangedCallback] at hc
    | some x =>
      simp [goConfigurationChangedCallback] at hc
      simp [hc, handleOf]
  · intro c hc
    simp [goAlertCallback] at hc
    simp [hc, handleOf]
  · intro c hc
    simp [goMenuStateChangedCallback] at hc
    simp [hc, handleOf]
  · intro c hc
    simp [goSourceActivatedCallback] at hc
    simp [hc, handleOf]
  · intro x hx
    show hostB handle alertKind paramAddr (writeHeap heap paramAddr param) x =
      heap x
    rw [hlocal _ _ _ _ _ hx]
    simp [writeHeap, hx]

/-- Witness for C9 at concrete inputs, with a host handler that only writes
through the handed reference. -/
theorem handle_opaque_and_inputs_readonly_witness :
    (∀ rec, ∀ c ∈ goLogMessageCallback 2 rec, handleOf c = 2) ∧
    (∀ key, ∀ c ∈ goKeyPressCallback 2 key, handleOf c = 2) ∧
    (∀ cmd, ∀ c ∈ goCommandCallback 2 cmd, handleOf c = 2) ∧
    (∀ cfg, ∀ c ∈ goConfigurationChangedCallback 2 cfg, handleOf c = 2) ∧
    (∀ c ∈ (goAlertCallback (fun _ _ p h => writeHeap h p 99) 2 4 9
      (fun _ => 0) 5).2, handleOf c = 2) ∧
    (∀ c ∈ (goMenuStateChangedCallback (fun _ _ => 1) 2 6).2,
      handleOf c = 2) ∧
    (∀ c ∈ goSourceActivatedCallback 2 7 255, handleOf c = 2) ∧
    (∀ x, x ≠ 5 →
      (goAlertCallback (fun _ _ p h => writeHeap h p 99) 2 4 9
        (fun _ => 0) 5).1 x = (fun _ => (0 : Int)) x) :=
  handle_opaque_and_inputs_readonly 2 (fun _ _ p h => writeHeap h p 99) 4 9
    (fun _ => 0) 5 (fun _ _ => 1) 6 7 255
    (fun _ _ p h x hx => by simp [writeHeap, hx])

/-- C10: the source-activated entry point applies no validation or
normalization to the activation flag: every 8-bit value 0..255 (not only 0
and 1) is forwarded exactly, together with the logical address, in exactly
one dispatch call. -/
theorem source_activated_no_validation (handle : Ptr) (address : Int)
    (activated : Fin 256) :
    goSourceActivatedCallback handle address activated =
      [HostCall.sourceActivated handle address activated.val] :=
  rfl
